import Mathlib

/-!
Shallow embedding of the heyatlas tunnel/relay messaging layer.

Modelled source files:
  * voice-agent/backend_agents/remote_tunnel.py   (RemoteTunnel)
  * voice-agent/backend_agents/opencode/opencode_client.py (OpenCodeClient)
  * voice-agent/backend_agents/agno/agno_client.py (AgnoClient)
  * voice-agent/assistants/genin.py               (GeninAssistant)
  * voice-agent/goose_client.py                   (GooseClient)
  * voice-agent/tunnel/atlas_tunnel.py            (AtlasTunnel)
  * agno-agent/websocket_server.py                (WebSocketManager)

Decoded JSON values are modelled by `JVal`; Python `None` and JSON `null`
are both `JVal.null` (both are falsy and compare unequal to every string,
which is all the modelled code observes).  JSON arrays and floating-point
numbers are omitted: none of the modelled handlers construct or inspect
them.
-/

/-- Decoded JSON value (also used for Python values flowing through the
handlers; Python `None` is `JVal.null`). -/
inductive JVal where
  | null : JVal
  | bool : Bool → JVal
  | num : Int → JVal
  | str : String → JVal
  | obj : List (String × JVal) → JVal
  deriving Repr

mutual

/-- Decidable structural equality on `JVal` (hand-rolled because the nested
inductive defeats the deriving handler). -/
def JVal.decEq : (a b : JVal) → Decidable (a = b)
  | .null, .null => .isTrue rfl
  | .null, .bool _ => .isFalse (fun h => JVal.noConfusion h)
  | .null, .num _ => .isFalse (fun h => JVal.noConfusion h)
  | .null, .str _ => .isFalse (fun h => JVal.noConfusion h)
  | .null, .obj _ => .isFalse (fun h => JVal.noConfusion h)
  | .bool _, .null => .isFalse (fun h => JVal.noConfusion h)
  | .bool a, .bool b =>
    if h : a = b then .isTrue (by rw [h]) else .isFalse (fun hh => h (JVal.bool.inj hh))
  | .bool _, .num _ => .isFalse (fun h => JVal.noConfusion h)
  | .bool _, .str _ => .isFalse (fun h => JVal.noConfusion h)
  | .bool _, .obj _ => .isFalse (fun h => JVal.noConfusion h)
  | .num _, .null => .isFalse (fun h => JVal.noConfusion h)
  | .num _, .bool _ => .isFalse (fun h => JVal.noConfusion h)
  | .num a, .num b =>
    if h : a = b then .isTrue (by rw [h]) else .isFalse (fun hh => h (JVal.num.inj hh))
  | .num _, .str _ => .isFalse (fun h => JVal.noConfusion h)
  | .num _, .obj _ => .isFalse (fun h => JVal.noConfusion h)
  | .str _, .null => .isFalse (fun h => JVal.noConfusion h)
  | .str _, .bool _ => .isFalse (fun h => JVal.noConfusion h)
  | .str _, .num _ => .isFalse (fun h => JVal.noConfusion h)
  | .str a, .str b =>
    if h : a = b then .isTrue (by rw [h]) else .isFalse (fun hh => h (JVal.str.inj hh))
  | .str _, .obj _ => .isFalse (fun h => JVal.noConfusion h)
  | .obj _, .null => .isFalse (fun h => JVal.noConfusion h)
  | .obj _, .bool _ => .isFalse (fun h => JVal.noConfusion h)
  | .obj _, .num _ => .isFalse (fun h => JVal.noConfusion h)
  | .obj _, .str _ => .isFalse (fun h => JVal.noConfusion h)
  | .obj a, .obj b =>
    match JVal.decEqFields a b with
    | .isTrue h => .isTrue (by rw [h])
    | .isFalse h => .isFalse (fun hh => h (JVal.obj.inj hh))

/-- Decidable equality on `JVal` field lists, mutual with `JVal.decEq`. -/
def JVal.decEqFields : (a b : List (String × JVal)) → Decidable (a = b)
  | [], [] => .isTrue rfl
  | [], _ :: _ => .isFalse (fun h => List.noConfusion h)
  | _ :: _, [] => .isFalse (fun h => List.noConfusion h)
  | (k₁, v₁) :: r₁, (k₂, v₂) :: r₂ =>
    if hk : k₁ = k₂ then
      match JVal.decEq v₁ v₂ with
      | .isTrue hv =>
        match JVal.decEqFields r₁ r₂ with
        | .isTrue hr => .isTrue (by rw [hk, hv, hr])
        | .isFalse hr => .isFalse (fun h => hr (by injection h))
      | .isFalse hv => .isFalse (fun h => by
          injection h with h₁ h₂
          exact hv (congrArg Prod.snd h₁))
    else .isFalse (fun h => by
      injection h with h₁ h₂
      exact hk (congrArg Prod.fst h₁))

end

instance : DecidableEq JVal := JVal.decEq

instance : BEq JVal := instBEqOfDecidableEq

/-- Decoded JSON object: an ordered association list of fields. -/
abbrev JObj := List (String × JVal)

/-- Python `dict.get(k)`: the value at the first matching key, if any. -/
def jget (d : JObj) (k : String) : Option JVal :=
  (d.find? (fun p => p.1 == k)).map (fun p => p.2)

/-- Python `dict.get(k, default)`. -/
def jgetD (d : JObj) (k : String) (v : JVal) : JVal :=
  (jget d k).getD v

/-- Python truthiness of a decoded value. -/
def truthy : JVal → Bool
  | .null => false
  | .bool b => b
  | .num n => n != 0
  | .str s => s != ""
  | .obj l => !l.isEmpty

/-- Python `a or b` on decoded values: `a` when truthy, else `b`. -/
def pyOr (a b : JVal) : JVal :=
  if truthy a then a else b

/-!
RemoteTunnel (voice-agent/backend_agents/remote_tunnel.py).

`RemoteTunnel._handle_message` decodes a frame and classifies it by `type`.
`handleContent` covers the branch chain that computes `content`; its result
is `none` when the frame is dropped before the callback check: the `tasks`
early return, or an exception swallowed by the blanket `except Exception`
(the `task-response` and `task-update` branches interpolate
`len(content)` / `content[:n]` into a log line, which raises `TypeError`
whenever `content` is not a string).  Otherwise `some c` is the computed
`content` (Python `None` when no branch matched).
-/

/-- Branch chain of `RemoteTunnel._handle_message` computing `content` from a
decoded frame. -/
def handleContent (data : JObj) : Option JVal :=
  let msgType := jget data "type"
  if msgType == some (.str "task-response") then
    match pyOr ((jget data "result").getD .null) (jgetD data "error" (.str "")) with
    | .str s => some (.str s)
    | _ => none
  else if msgType == some (.str "task-update") then
    let status := jgetD data "status" (.str "running")
    if status == .str "needs_input" || status == .str "completed" || status == .str "error" then
      match jgetD data "message" (.str "") with
      | .str s => some (.str s)
      | _ => none
    else some .null
  else if msgType == some (.str "response") then
    some (jgetD data "content" (.str ""))
  else if msgType == some (.str "tasks") then
    none
  else some .null

/-- Model of `RemoteTunnel._handle_message`: `decoded` is the outcome of
`json.loads` (`none` = `JSONDecodeError`, logged and dropped); `cb` is whether
a subscriber callback is registered; the result is the value passed to the
callback, if it is invoked. -/
def handleMessage (cb : Bool) (decoded : Option JObj) : Option JVal :=
  match decoded with
  | none => none
  | some data =>
    match handleContent data with
    | none => none
    | some content => if truthy content && cb then some content else none

/-- Model of the frame-processing done by `RemoteTunnel._listen`: each frame is
handed to `_handle_message`, which never lets an exception escape, so the loop
survives every frame; the result collects the callback invocations in order. -/
def listenDeliveries (cb : Bool) (frames : List (Option JObj)) : List JVal :=
  frames.filterMap (handleMessage cb)

/-- Connection-relevant state of a `RemoteTunnel` object: whether
`self.websocket` is set, the `self._is_connected` flag, and `self.agent_id`. -/
structure RemoteTunnelState where
  hasWebsocket : Bool
  isConnected : Bool
  agentId : String
  deriving Repr, DecidableEq

/-- Envelope built by `RemoteTunnel.pub`: note the fields are exactly
`type`/`content`/`agent`/`source` — nothing else reaches the wire. -/
def pubPayload (st : RemoteTunnelState) (message agent : String) : JObj :=
  [("type", .str "tasks"), ("content", .str message),
   ("agent", .str agent), ("source", .str st.agentId)]

/-- Model of `RemoteTunnel.pub`. `sessionId` models the `session_id=...`
keyword argument callers such as `GeninAssistant.run_task` pass: `pub`'s
signature is `(self, message, agent="opencode", **kwargs)`, so it lands in
`**kwargs` and is never read.  `sendOk` is whether `websocket.send` succeeds
(an exception is caught and turned into `False`).  The result is the return
value, the state after the call, and the envelope written to the wire, if
any. -/
def pub (st : RemoteTunnelState) (message agent : String) (sessionId : Option String)
    (sendOk : Bool) : Bool × RemoteTunnelState × Option JObj :=
  let _ := sessionId
  if !st.hasWebsocket || !st.isConnected then (false, st, none)
  else if sendOk then (true, st, some (pubPayload st message agent))
  else (false, st, none)

/-- Model of `GeninAssistant.run_task`: generates a fresh `session_id` and
passes it to `RemoteTunnel.pub` as a keyword argument (target agent defaults
to `"opencode"`). -/
def runTask (st : RemoteTunnelState) (task sessionId : String) (sendOk : Bool) :
    Bool × RemoteTunnelState × Option JObj :=
  pub st task "opencode" (some sessionId) sendOk

/-- Model of `RemoteTunnel.disconnect`: sets `_is_connected = False`, closes
the socket if present (exceptions swallowed) and clears `self.websocket`. -/
def remoteDisconnect (st : RemoteTunnelState) : RemoteTunnelState :=
  { st with isConnected := false, hasWebsocket := false }

/-!
OpenCodeClient (voice-agent/backend_agents/opencode/opencode_client.py).
-/

/-- Connection-relevant state of an `OpenCodeClient` object. -/
structure OpenCodeClientState where
  hasWebsocket : Bool
  isConnected : Bool
  deriving Repr, DecidableEq

/-- Envelope built by `OpenCodeClient.send_message`: `session_id` is added
only when the argument is truthy (`if session_id:`). -/
def sendMessagePayload (message : String) (sessionId : Option String) : JObj :=
  let base : JObj := [("type", .str "message"), ("content", .str message)]
  match sessionId with
  | some sid => if sid != "" then base ++ [("session_id", .str sid)] else base
  | none => base

/-- Model of `OpenCodeClient.send_message`: returns `False` when not
connected; on a send exception (`sendOk = false`) returns `False` and sets
`self._is_connected = False`. -/
def sendMessage (st : OpenCodeClientState) (message : String) (sessionId : Option String)
    (sendOk : Bool) : Bool × OpenCodeClientState × Option JObj :=
  if !st.isConnected || !st.hasWebsocket then (false, st, none)
  else if sendOk then (true, st, some (sendMessagePayload message sessionId))
  else (false, { st with isConnected := false }, none)

/-!
AgnoClient (voice-agent/backend_agents/agno/agno_client.py).

`AgnoClient` inherits from `BaseAgentClient`
(on-cloud/voice-agent/backend_agents/agent_interface.py), where
`is_connected` is declared as a `@property` with no setter over the backing
field `self._is_connected`.  `AgnoClient.disconnect` ends with the statement
`self.is_connected = False`: assigning through a setterless property raises
`AttributeError` on every call, after the socket (if any) has been closed.
-/

/-- Connection-relevant state of an `AgnoClient` object: `socketOpen` models
`self.websocket` (`none` = `None`, `some b` = a socket whose open flag is
`b`); `isConnectedBacking` models `self._is_connected`. -/
structure AgnoClientState where
  socketOpen : Option Bool
  isConnectedBacking : Bool
  deriving Repr, DecidableEq

/-- Model of `AgnoClient.disconnect`: closes the socket if present
(exceptions from `close()` are swallowed), then executes
`self.is_connected = False`, which raises `AttributeError` because
`is_connected` is a read-only property.  The result is the state reached
before the raise together with the raised exception. -/
def agnoDisconnect (st : AgnoClientState) : AgnoClientState × Except String Unit :=
  let stClosed := { st with socketOpen := st.socketOpen.map (fun _ => false) }
  (stClosed, Except.error "AttributeError: property is_connected has no setter")

/-!
GeninAssistant (voice-agent/assistants/genin.py): the turn-aware delivery
queue.  `self.task_queue` is an `asyncio.Queue` used only through
`put_nowait` (append at the back), `get_nowait` (pop the front) and
`empty()`, so it is a FIFO list of strings.
-/

/-- Conversational engine state as read from `session.agent_state`. -/
inductive AgentState where
  | speaking
  | thinking
  | idle
  | listening
  deriving Repr, DecidableEq

/-- Model of the `agent_response_handler` closure registered by
`GeninAssistant.register_computer_agent_response_callback`: when the agent is
speaking or thinking the update is queued; otherwise a reply is generated
immediately and the update is queued (once) only if that reply was
interrupted.  `interrupted` models `speech_handle.interrupted` of the
immediately generated reply; the chat-history side effects are not modelled.
Returns the queue after the call. -/
def agentResponseHandler (st : AgentState) (interrupted : Bool) (q : List String)
    (responseText : String) : List String :=
  if st = AgentState.speaking ∨ st = AgentState.thinking then
    q ++ [responseText]
  else if interrupted then q ++ [responseText]
  else q

/-- Model of `GeninAssistant.on_user_turn_completed` restricted to the queue:
if the queue is empty nothing happens; otherwise exactly one update is popped
from the front and surfaced into the turn context.  Returns the remaining
queue and the surfaced update, if any. -/
def onUserTurnCompleted (q : List String) : List String × Option String :=
  match q with
  | [] => (q, none)
  | u :: rest => (rest, some u)

/-- Iterate `onUserTurnCompleted` over `n` successive user turns, collecting
the surfaced updates in order. -/
def surfaceTurns : Nat → List String → List String
  | 0, _ => []
  | n + 1, q =>
    match onUserTurnCompleted q with
    | (rest, none) => surfaceTurns n rest
    | (rest, some u) => u :: surfaceTurns n rest

/-!
GooseClient (voice-agent/goose_client.py): streaming adapter.
`_listen_for_responses` accumulates `response` frame contents in
`self.current_streaming_content` and forwards the concatenation to the
callback when a `complete` frame arrives.
-/

/-- Python f-string rendering of a decoded value, as used in the goose
handler's `f"[ERROR] {error_msg}"` and `f"[TOOL RESPONSE RECEIVED] {...}"`
interpolations (the rendering of a dict is approximated by the empty string;
no modelled frame carries one there). -/
def pyFStr : JVal → String
  | .str s => s
  | .num n => toString n
  | .bool b => if b then "True" else "False"
  | .null => "None"
  | .obj _ => ""

/-- One decoded frame of `GooseClient._listen_for_responses`: given the
current streaming buffer and whether a response callback is registered,
returns `none` when the frame raises (ending the listen loop: `+=` with a
non-string content, or calling an unregistered callback in the
`tool_response` branch), and otherwise the new buffer together with the
value forwarded to the callback, if any. -/
def gooseStep (cb : Bool) (buf : String) (data : JObj) : Option (String × Option String) :=
  let msgType := jget data "type"
  if msgType == some (.str "response") then
    match jgetD data "content" (.str "") with
    | .str s => some (buf ++ s, none)
    | _ => none
  else if msgType == some (.str "complete") then
    some ("", if buf != "" && cb then some buf else none)
  else if msgType == some (.str "error") then
    some ("", if cb then some ("[ERROR] " ++ pyFStr (jgetD data "message" (.str "Unknown error")))
              else none)
  else if msgType == some (.str "thinking") then
    some (buf, none)
  else if msgType == some (.str "tool_request") then
    some (buf, none)
  else if msgType == some (.str "tool_response") then
    if cb then
      some (buf, some ("[TOOL RESPONSE RECEIVED] " ++ pyFStr (jgetD data "content" (.str ""))))
    else none
  else if msgType == some (.str "cancelled") then
    some ("", none)
  else if msgType == some (.str "context_exceeded") then
    some (buf, none)
  else
    some (buf, none)

/-- Run the goose listen loop over a list of decoded frames, starting from
buffer `buf`; stops early when a frame raises.  Returns the final buffer and
the callback invocations in order. -/
def gooseRun (cb : Bool) (buf : String) : List JObj → String × List String
  | [] => (buf, [])
  | data :: rest =>
    match gooseStep cb buf data with
    | none => (buf, [])
    | some (buf', em) =>
      let r := gooseRun cb buf' rest
      (r.1, em.toList ++ r.2)

/-- Shape of a streaming `response` frame carrying a content chunk. -/
def respFrame (s : String) : JObj := [("type", .str "response"), ("content", .str s)]

/-- Shape of the terminal `complete` frame. -/
def completeFrame : JObj := [("type", .str "complete")]

/-- Concatenation of a list of content chunks. -/
def strConcat (cs : List String) : String := cs.foldr (fun a b => a ++ b) ""

/-!
WebSocketManager (agno-agent/websocket_server.py): server-side connection
manager.  `handle_message` is invoked by the websocket endpoint
(agno-agent/main.py) after a successful `connect`, which binds
`self.agent` and `self.websocket`.
-/

/-- Observable outcome of `WebSocketManager.handle_message`: the envelope
sent back over the websocket, if any, and whether
`agent.run_task_stream` was invoked. -/
structure SrvResult where
  sent : Option JObj
  taskRan : Bool
  deriving Repr, DecidableEq

/-- Model of `WebSocketManager.handle_message`.  `hasAgent`/`hasWebsocket`
model `self.agent`/`self.websocket`; `taskOk` is whether
`agent.run_task_stream` completes without raising, and `excMsg` is `str(e)`
of the exception otherwise. -/
def srvHandleMessage (hasAgent hasWebsocket : Bool) (userId : String) (message : JObj)
    (taskOk : Bool) (excMsg : String) : SrvResult :=
  if !hasAgent || !hasWebsocket then ⟨none, false⟩
  else if jget message "type" == some (.str "message") then
    let sessionId := (jget message "session_id").getD .null
    if !truthy sessionId then
      ⟨some [("type", .str "error"), ("message", .str "Session ID is required"),
             ("user_id", .str userId)], false⟩
    else if taskOk then ⟨none, true⟩
    else
      ⟨some [("type", .str "error"), ("message", .str excMsg),
             ("user_id", .str userId), ("session_id", sessionId)], true⟩
  else ⟨none, false⟩

/-!
AtlasTunnel (voice-agent/tunnel/atlas_tunnel.py): `_handle_state_update`
watches synced task states and fires the callback when a task transitions
into `"pending-user-feedback"`.
-/

/-- Python dict assignment `m[k] = v` on an insertion-ordered dict: updates
the existing entry in place, or appends a new one. -/
def setAssoc : List (String × JVal) → String → JVal → List (String × JVal)
  | [], k, v => [(k, v)]
  | (k', v') :: rest, k, v =>
    if k' == k then (k, v) :: rest else (k', v') :: setAssoc rest k v

/-- State of an `AtlasTunnel` object relevant to `_handle_state_update`:
`self._initialized` and `self._task_states`. -/
structure AtlasState where
  initialized : Bool
  taskStates : List (String × JVal)
  deriving Repr, DecidableEq

/-- Per-entry part of the `.items()` iteration over the synced tasks dict:
each task value must itself be a dict (otherwise `task.get` raises
`AttributeError`, which escapes to `_listen` and ends the loop). -/
def atlasTasksGo : List (String × JVal) → Option (List (String × JObj))
  | [] => some []
  | (k, v) :: rest =>
    match v with
    | .obj fields => (atlasTasksGo rest).map (fun r => (k, fields) :: r)
    | _ => none

/-- Extraction `state.get("tasks", {})` followed by `.items()` iteration. -/
def atlasTasks (state : JObj) : Option (List (String × JObj)) :=
  match jgetD state "tasks" (.obj []) with
  | .obj ts => atlasTasksGo ts
  | _ => none

/-- Model of `AtlasTunnel._handle_state_update`.  On the first sync it only
records every task's state and emits nothing; on later syncs it records each
task's state and emits the task's summary exactly when the task's current
state is `"pending-user-feedback"` and the previously recorded state (absent
counts as different) differs.  Each emission is handed to
`_invoke_callback`; the result is the new tunnel state and the emissions in
iteration order, or `none` when the tasks value does not decode as a dict of
dicts. -/
def handleStateUpdate (st : AtlasState) (state : JObj) : Option (AtlasState × List JVal) :=
  match atlasTasks state with
  | none => none
  | some tasks =>
    if !st.initialized then
      some ({ initialized := true,
              taskStates := tasks.foldl
                (fun m tt => setAssoc m tt.1 (jgetD tt.2 "state" (.str ""))) st.taskStates },
            [])
    else
      some (tasks.foldl
        (fun acc tt =>
          let prev := jget acc.1.taskStates tt.1
          let curr := jgetD tt.2 "state" (.str "")
          let st' := { acc.1 with taskStates := setAssoc acc.1.taskStates tt.1 curr }
          if curr == .str "pending-user-feedback" && !(prev == some curr) then
            let summary := pyOr ((jget tt.2 "summary").getD .null)
                                (jgetD tt.2 "result" (.str "Task completed"))
            (st', acc.2 ++ [summary])
          else (st', acc.2))
        (st, []))

/-- Model of `AtlasTunnel._invoke_callback`: forwards the summary to the
registered callback, if any. -/
def invokeCallback (cb : Bool) (summary : JVal) : Option JVal :=
  if cb then some summary else none

/-!
Claim theorems.
-/

/-- C1 (counterexample): the claim says a `task-update` frame with status
`"running"` and a non-empty message is delivered to the subscriber callback;
on the spec's own example frame the handler invokes no callback — the
`task-update` branch forwards only the statuses `needs_input`, `completed`
and `error`. -/
theorem c1_counterexample :
    handleMessage true
      (some [("type", JVal.str "task-update"), ("status", JVal.str "running"),
             ("message", JVal.str "navigating"), ("progress", JVal.num 40)]) = none := by
  decide

/-- C1 (amended): `task-response` frames with a non-empty string `result` and
`response` frames with non-empty string content are delivered to the
registered callback, and `task-update` frames are delivered (with their
`message`) only when their status is `needs_input`, `completed` or `error`;
a `task-update` whose status is `"running"` is never delivered, whatever its
message. -/
theorem c1_amended :
    (∀ (cb : Bool) (d : JObj), jget d "type" = some (JVal.str "task-update") →
      jgetD d "status" (JVal.str "running") = JVal.str "running" →
      handleMessage cb (some d) = none)
    ∧ (∀ (d : JObj) (m : String), jget d "type" = some (JVal.str "task-update") →
      (jgetD d "status" (JVal.str "running") = JVal.str "needs_input" ∨
       jgetD d "status" (JVal.str "running") = JVal.str "completed" ∨
       jgetD d "status" (JVal.str "running") = JVal.str "error") →
      jgetD d "message" (JVal.str "") = JVal.str m → m ≠ "" →
      handleMessage true (some d) = some (JVal.str m))
    ∧ (∀ (d : JObj) (s : String), jget d "type" = some (JVal.str "response") →
      jgetD d "content" (JVal.str "") = JVal.str s → s ≠ "" →
      handleMessage true (some d) = some (JVal.str s))
    ∧ (∀ (d : JObj) (s : String), jget d "type" = some (JVal.str "task-response") →
      jget d "result" = some (JVal.str s) → s ≠ "" →
      handleMessage true (some d) = some (JVal.str s)) := by
  refine ⟨?_, ?_, ?_, ?_⟩
  · intro cb d h1 h2
    simp [handleMessage, handleContent, h1, h2, truthy]
  · intro d m h1 h2 h3 h4
    rcases h2 with h2 | h2 | h2 <;>
      simp [handleMessage, handleContent, h1, h2, h3, truthy, h4]
  · intro d s h1 h2 h3
    simp [handleMessage, handleContent, h1, h2, truthy, h3]
  · intro d s h1 h2 h3
    simp [handleMessage, handleContent, h1, h2, pyOr, truthy, h3]

/-- C1 (witness): concrete frames exercising every branch of `c1_amended`. -/
theorem c1_witness :
    handleMessage true
        (some [("type", JVal.str "task-update"), ("status", JVal.str "running"),
               ("message", JVal.str "navigating")]) = none
    ∧ handleMessage true
        (some [("type", JVal.str "task-update"), ("status", JVal.str "completed"),
               ("message", JVal.str "done with the task")]) = some (JVal.str "done with the task")
    ∧ handleMessage true
        (some [("type", JVal.str "response"), ("content", JVal.str "hello")]) =
        some (JVal.str "hello")
    ∧ handleMessage true
        (some [("type", JVal.str "task-response"), ("result", JVal.str "42 files moved")]) =
        some (JVal.str "42 files moved") :=
  ⟨c1_amended.1 true _ (by decide) (by decide),
   c1_amended.2.1 _ "done with the task" (by decide) (Or.inr (Or.inl (by decide)))
     (by decide) (by decide),
   c1_amended.2.2.1 _ "hello" (by decide) (by decide) (by decide),
   c1_amended.2.2.2 _ "42 files moved" (by decide) (by decide) (by decide)⟩

/-- C2 (counterexample): on a connected tunnel, a publish without any
`session_id` is not rejected — it returns `True` — and a publish carrying a
caller-supplied `session_id` writes an envelope whose fields are exactly
`type`/`content`/`agent`/`source`, with no `session_id`. -/
theorem c2_counterexample :
    (pub ⟨true, true, "voice-agent"⟩ "open browser" "opencode" none true).1 = true
    ∧ (pub ⟨true, true, "voice-agent"⟩ "open browser" "opencode" (some "abc123") true).2.2 =
        some [("type", JVal.str "tasks"), ("content", JVal.str "open browser"),
              ("agent", JVal.str "opencode"), ("source", JVal.str "voice-agent")]
    ∧ jget [("type", JVal.str "tasks"), ("content", JVal.str "open browser"),
            ("agent", JVal.str "opencode"), ("source", JVal.str "voice-agent")]
        "session_id" = none := by
  decide

/-- C2 (amended): `RemoteTunnel.pub` silently discards the caller-supplied
`session_id` (it behaves identically with and without one, so its absence is
never rejected), the envelope it writes never contains a `session_id` field,
and `GeninAssistant.run_task`'s generated `session_id` is therefore dropped
before the wire. -/
theorem c2_amended (st : RemoteTunnelState) (msg agent sid : String) (ok : Bool) :
    pub st msg agent (some sid) ok = pub st msg agent none ok
    ∧ jget (pubPayload st msg agent) "session_id" = none
    ∧ runTask st msg sid ok = pub st msg "opencode" none ok := by
  refine ⟨rfl, ?_, rfl⟩
  simp [pubPayload, jget, List.find?]

/-- C2 (amended, witness): the amended claim instantiated on the connected
tunnel publishing the spec's example task. -/
theorem c2_amended_witness :
    pub ⟨true, true, "voice-agent"⟩ "open browser" "opencode" (some "abc123") true =
      pub ⟨true, true, "voice-agent"⟩ "open browser" "opencode" none true
    ∧ jget (pubPayload ⟨true, true, "voice-agent"⟩ "open browser" "opencode") "session_id" = none
    ∧ runTask ⟨true, true, "voice-agent"⟩ "open browser" "abc123" true =
      pub ⟨true, true, "voice-agent"⟩ "open browser" "opencode" none true :=
  c2_amended ⟨true, true, "voice-agent"⟩ "open browser" "opencode" "abc123" true

/-- C3 (confirmed): when the agent is idle, an update whose immediate spoken
reply is interrupted is put back on the task queue exactly once (the queue
grows by exactly that one element, so it is neither dropped nor duplicated),
and an uninterrupted reply enqueues nothing. -/
theorem c3_confirmed :
    (∀ (q : List String) (r : String),
      agentResponseHandler AgentState.idle true q r = q ++ [r])
    ∧ (∀ (q : List String) (r : String),
      agentResponseHandler AgentState.idle false q r = q)
    ∧ (∀ (q : List String) (r : String),
      (agentResponseHandler AgentState.idle true q r).count r = q.count r + 1) := by
  refine ⟨fun q r => by simp [agentResponseHandler],
          fun q r => by simp [agentResponseHandler],
          fun q r => by simp [agentResponseHandler, List.count_append]⟩

/-- C4 (confirmed): a user-turn boundary dequeues nothing from an empty
queue and exactly the front element from a non-empty one, and draining a
queue of updates across successive turns surfaces them in exactly the FIFO
order in which they were enqueued. -/
theorem c4_confirmed :
    onUserTurnCompleted [] = ([], none)
    ∧ (∀ (u : String) (rest : List String), onUserTurnCompleted (u :: rest) = (rest, some u))
    ∧ (∀ q : List String, surfaceTurns q.length q = q) := by
  refine ⟨rfl, fun u rest => rfl, ?_⟩
  intro q
  induction q with
  | nil => rfl
  | cons u rest ih => simp [surfaceTurns, onUserTurnCompleted, ih]

/-- C5 (code bug): `AgnoClient.disconnect` ends in `self.is_connected =
False`, an assignment through the setterless `is_connected` property of
`BaseAgentClient`, so every call — including on a never-connected client —
raises `AttributeError` instead of completing; `RemoteTunnel.disconnect`, by
contrast, is idempotent and leaves `is_connected` reading false. -/
theorem c5_code_bug :
    (agnoDisconnect ⟨none, false⟩).2 =
      Except.error "AttributeError: property is_connected has no setter"
    ∧ (∀ st : AgnoClientState, (agnoDisconnect st).2 =
      Except.error "AttributeError: property is_connected has no setter")
    ∧ (∀ st : RemoteTunnelState, (remoteDisconnect st).isConnected = false
      ∧ remoteDisconnect (remoteDisconnect st) = remoteDisconnect st) :=
  ⟨rfl, fun _ => rfl, fun _ => ⟨rfl, rfl⟩⟩

/-- C6 (counterexample): on a connected `RemoteTunnel` whose write fails,
`pub` returns `False` but `is_connected` still reads true immediately
afterwards — `pub` never touches the flag, contradicting the claim that a
write failure flips it. -/
theorem c6_counterexample :
    (pub ⟨true, true, "voice-agent"⟩ "open browser" "opencode" none false).1 = false
    ∧ (pub ⟨true, true, "voice-agent"⟩ "open browser" "opencode" none
        false).2.1.isConnected = true := by
  decide

/-- C6 (amended): a publish on a closed connection or with a failing write
returns false rather than raising for both `RemoteTunnel.pub` and
`OpenCodeClient.send_message`; `send_message` additionally flips
`is_connected` to false on a write failure, while `pub` leaves the tunnel
state completely unchanged — its `is_connected` is cleared only by the
receive loop, not by the failed publish. -/
theorem c6_amended :
    (∀ (st : RemoteTunnelState) (msg agent : String) (sid : Option String),
      (pub st msg agent sid false).1 = false)
    ∧ (∀ (hw : Bool) (aid msg agent : String) (sid : Option String) (ok : Bool),
      (pub ⟨hw, false, aid⟩ msg agent sid ok).1 = false)
    ∧ (∀ (st : RemoteTunnelState) (msg agent : String) (sid : Option String) (ok : Bool),
      (pub st msg agent sid ok).2.1 = st)
    ∧ (∀ (msg : String) (sid : Option String),
      sendMessage ⟨true, true⟩ msg sid false = (false, ⟨true, false⟩, none))
    ∧ (∀ (hw : Bool) (msg : String) (sid : Option String) (ok : Bool),
      (sendMessage ⟨hw, false⟩ msg sid ok).1 = false) := by
  refine ⟨?_, ?_, ?_, ?_, ?_⟩
  · intro st msg agent sid
    rcases st with ⟨hw, ic, aid⟩
    cases hw <;> cases ic <;> simp [pub]
  · intro hw aid msg agent sid ok
    cases hw <;> simp [pub]
  · intro st msg agent sid ok
    rcases st with ⟨hw, ic, aid⟩
    cases hw <;> cases ic <;> cases ok <;> simp [pub]
  · intro msg sid
    simp [sendMessage]
  · intro hw msg sid ok
    cases hw <;> simp [sendMessage]

/-- Streaming `response` frames only accumulate: running the goose listener
over them appends their contents to the buffer and emits nothing. -/
theorem gooseRun_respFrames (cb : Bool) (cs : List String) :
    ∀ b : String, gooseRun cb b (cs.map respFrame) = (b ++ strConcat cs, []) := by
  induction cs with
  | nil => intro b; simp [gooseRun, strConcat]
  | cons c rest ih =>
    intro b
    simp [gooseRun, gooseStep, respFrame, jget, jgetD, ih, strConcat, String.append_assoc]

/-- Running the goose listener over accumulating frames closed by a terminal
`complete` frame flushes the whole buffer at once and resets it, leaving any
following frames to start from an empty buffer. -/
theorem gooseRun_respFrames_complete (cb : Bool) (cs : List String) (ys : List JObj) :
    ∀ b : String, gooseRun cb b ((cs.map respFrame ++ [completeFrame]) ++ ys) =
      ((gooseRun cb "" ys).1,
       (if (b ++ strConcat cs) != "" && cb then [b ++ strConcat cs] else []) ++
         (gooseRun cb "" ys).2) := by
  induction cs with
  | nil =>
    intro b
    simp [gooseRun, gooseStep, completeFrame, jget, strConcat]
    split <;> simp
  | cons c rest ih =>
    intro b
    have h := ih (b ++ c)
    simp [gooseRun, gooseStep, respFrame, jget, jgetD, strConcat, String.append_assoc,
          List.append_assoc] at h ⊢
    exact h

/-- C7 (confirmed): the goose streaming adapter accumulates partial
`response` contents without invoking the callback, invokes it exactly once
with the full concatenation when the terminal `complete` frame arrives,
resets its buffer to empty, and a second response streamed afterwards is
delivered without any of the prior content. -/
theorem c7_confirmed (cs ds : List String) (h₁ : strConcat cs ≠ "")
    (h₂ : strConcat ds ≠ "") :
    gooseRun true "" (cs.map respFrame) = (strConcat cs, [])
    ∧ gooseRun true "" (cs.map respFrame ++ [completeFrame]) = ("", [strConcat cs])
    ∧ gooseRun true "" ((cs.map respFrame ++ [completeFrame]) ++
        (ds.map respFrame ++ [completeFrame])) = ("", [strConcat cs, strConcat ds]) := by
  refine ⟨?_, ?_, ?_⟩
  · simpa using gooseRun_respFrames true cs ""
  · have h := gooseRun_respFrames_complete true cs [] ""
    simpa [gooseRun, h₁] using h
  · have h2 := gooseRun_respFrames_complete true ds [] ""
    simp [gooseRun, h₂] at h2
    have h := gooseRun_respFrames_complete true cs (ds.map respFrame ++ [completeFrame]) ""
    simp [h2, h₁] at h
    simpa using h

/-- C7 (witness): two chunks concatenated and flushed once, then a second
response delivered clean. -/
theorem c7_witness :
    strConcat ["navi", "gating"] ≠ ""
    ∧ (gooseRun true "" (["navi", "gating"].map respFrame) =
        (strConcat ["navi", "gating"], [])
      ∧ gooseRun true "" (["navi", "gating"].map respFrame ++ [completeFrame]) =
        ("", [strConcat ["navi", "gating"]])
      ∧ gooseRun true "" ((["navi", "gating"].map respFrame ++ [completeFrame]) ++
          (["done"].map respFrame ++ [completeFrame])) =
        ("", [strConcat ["navi", "gating"], strConcat ["done"]])) :=
  ⟨by decide, c7_confirmed ["navi", "gating"] ["done"] (by decide) (by decide)⟩

/-- C8 (confirmed): a frame that fails JSON decoding is dropped inside
`_handle_message` (the `JSONDecodeError` handler), so the receive loop's
deliveries are exactly those of the remaining frames — in particular a
well-formed `response` frame arriving right after a malformed one is still
delivered to the callback. -/
theorem c8_confirmed :
    (∀ (cb : Bool) (rest : List (Option JObj)),
      listenDeliveries cb (none :: rest) = listenDeliveries cb rest)
    ∧ listenDeliveries true
        [none, some [("type", JVal.str "response"), ("content", JVal.str "done")]] =
        [JVal.str "done"] := by
  refine ⟨fun cb rest => ?_, by decide⟩
  simp [listenDeliveries, handleMessage]

/-- C9 (confirmed): with an agent and websocket bound (as the endpoint in
agno-agent/main.py guarantees after `connect`), an inbound `message` frame
whose `session_id` is absent, null or empty makes `handle_message` send back
an `error` envelope saying a session ID is required, without running the
task. -/
theorem c9_confirmed (userId : String) (msg : JObj) (taskOk : Bool) (excMsg : String)
    (htype : jget msg "type" = some (JVal.str "message"))
    (hsid : truthy ((jget msg "session_id").getD JVal.null) = false) :
    srvHandleMessage true true userId msg taskOk excMsg =
      ⟨some [("type", JVal.str "error"), ("message", JVal.str "Session ID is required"),
             ("user_id", JVal.str userId)], false⟩ := by
  simp [srvHandleMessage, htype, hsid]

/-- C9 (witness): a `message` frame with no `session_id` field gets the
required-session error and no task run. -/
theorem c9_witness :
    srvHandleMessage true true "user-1"
        [("type", JVal.str "message"), ("content", JVal.str "open browser")] true "boom" =
      ⟨some [("type", JVal.str "error"), ("message", JVal.str "Session ID is required"),
             ("user_id", JVal.str "user-1")], false⟩ :=
  c9_confirmed "user-1" [("type", JVal.str "message"), ("content", JVal.str "open browser")]
    true "boom" (by decide) (by decide)

/-- Looking up a key right after `setAssoc` stored it yields the stored
value. -/
theorem jget_setAssoc_self (m : List (String × JVal)) (k : String) (v : JVal) :
    jget (setAssoc m k v) k = some v := by
  induction m with
  | nil => simp [setAssoc, jget]
  | cons p rest ih =>
    by_cases hk : p.1 = k
    · simp [setAssoc, jget, hk]
    · rcases p with ⟨k', v'⟩
      simp only [setAssoc]
      simp only [jget, List.find?] at ih ⊢
      simp [hk] at ih ⊢
      simp [ih]

/-- Evaluating the tasks extraction on a singleton synced-state object. -/
theorem atlasTasks_singleton (tid : String) (task : JObj) :
    atlasTasks [("tasks", JVal.obj [(tid, JVal.obj task)])] = some [(tid, task)] := by
  simp [atlasTasks, atlasTasksGo, jgetD, jget]

/-- C10 (confirmed): the first state sync records task states and never
invokes the callback; a later single-task sync emits the task's summary
exactly when the task's state is `pending-user-feedback` and its recorded
previous state (absent counts as different) was not, and records the new
state; a task already recorded as `pending-user-feedback` that is still
`pending-user-feedback` on the next sync emits nothing. -/
theorem c10_confirmed :
    (∀ (st : AtlasState) (state : JObj) (st' : AtlasState) (ems : List JVal),
      st.initialized = false → handleStateUpdate st state = some (st', ems) → ems = [])
    ∧ (∀ (st : AtlasState) (tid : String) (task : JObj),
      st.initialized = true →
      handleStateUpdate st [("tasks", JVal.obj [(tid, JVal.obj task)])] =
        some (⟨st.initialized, setAssoc st.taskStates tid (jgetD task "state" (JVal.str ""))⟩,
          if jgetD task "state" (JVal.str "") = JVal.str "pending-user-feedback" ∧
             jget st.taskStates tid ≠ some (JVal.str "pending-user-feedback")
          then [pyOr ((jget task "summary").getD JVal.null)
                     (jgetD task "result" (JVal.str "Task completed"))]
          else [])
      ∧ jget (setAssoc st.taskStates tid (jgetD task "state" (JVal.str ""))) tid =
          some (jgetD task "state" (JVal.str "")))
    ∧ (∀ (st : AtlasState) (tid : String) (task : JObj),
      st.initialized = true →
      jget st.taskStates tid = some (JVal.str "pending-user-feedback") →
      jgetD task "state" (JVal.str "") = JVal.str "pending-user-feedback" →
      handleStateUpdate st [("tasks", JVal.obj [(tid, JVal.obj task)])] =
        some (⟨st.initialized, setAssoc st.taskStates tid (jgetD task "state" (JVal.str ""))⟩,
              [])) := by
  refine ⟨?_, ?_, ?_⟩
  · intro st state st' ems h0 h
    cases hT : atlasTasks state with
    | none => rw [handleStateUpdate, hT] at h; cases h
    | some tasks =>
      rw [handleStateUpdate, hT] at h
      simp [h0] at h
      exact h.2
  · intro st tid task hinit
    refine ⟨?_, jget_setAssoc_self _ _ _⟩
    by_cases hc : jgetD task "state" (JVal.str "") = JVal.str "pending-user-feedback" <;>
      by_cases hp : jget st.taskStates tid = some (JVal.str "pending-user-feedback") <;>
        simp [handleStateUpdate, atlasTasks_singleton, hinit, hc, hp]
  · intro st tid task hinit hprev hcurr
    simp [handleStateUpdate, atlasTasks_singleton, hinit, hcurr, hprev]

/-- C10 (witness): a fresh tunnel ignores the initial sync; after
initialization a task entering `pending-user-feedback` emits its summary
once, and an identical follow-up sync emits nothing. -/
theorem c10_witness :
    (handleStateUpdate ⟨false, []⟩
        [("tasks", JVal.obj [("t1", JVal.obj [("state", JVal.str "working")])])] =
      some (⟨true, [("t1", JVal.str "working")]⟩, []) → ([] : List JVal) = [])
    ∧ (handleStateUpdate ⟨true, []⟩
        [("tasks", JVal.obj [("t1", JVal.obj [("state", JVal.str "pending-user-feedback"),
                                              ("summary", JVal.str "ready for review")])])] =
        some (⟨true, [("t1", JVal.str "pending-user-feedback")]⟩,
              [JVal.str "ready for review"])
      ∧ jget [("t1", JVal.str "pending-user-feedback")] "t1" =
          some (JVal.str "pending-user-feedback"))
    ∧ handleStateUpdate ⟨true, [("t1", JVal.str "pending-user-feedback")]⟩
        [("tasks", JVal.obj [("t1", JVal.obj [("state", JVal.str "pending-user-feedback"),
                                              ("summary", JVal.str "ready for review")])])] =
        some (⟨true, [("t1", JVal.str "pending-user-feedback")]⟩, []) := by
  refine ⟨c10_confirmed.1 (⟨false, []⟩ : AtlasState) _
    (⟨true, [("t1", JVal.str "working")]⟩ : AtlasState) [] rfl, ?_, ?_⟩
  · have h := c10_confirmed.2.1 ⟨true, []⟩ "t1"
      [("state", JVal.str "pending-user-feedback"), ("summary", JVal.str "ready for review")]
      rfl
    refine ⟨?_, ?_⟩
    · have h1 := h.1
      rw [h1]
      decide
    · have h2 := h.2
      revert h2
      decide
  · have h := c10_confirmed.2.2 ⟨true, [("t1", JVal.str "pending-user-feedback")]⟩ "t1"
      [("state", JVal.str "pending-user-feedback"), ("summary", JVal.str "ready for review")]
      rfl (by decide) (by decide)
    rw [h]
    decide
